import Mathlib

/-!
Verification development for the storage-scraper repository.

Shallow embedding of the scrape-and-extract pipeline:
  models.py        -> StorageUnit, ScrapingResult
  ollama_client.py -> json_loads (Python json.loads), parse_ollama_response,
                      call_ollama, extract_storage_data, clean_html_for_llm
  scraper.py       -> scrape_url (per-URL pipeline), scrape_urls (orchestrator)

External collaborators (Playwright browser, aiohttp transport, BeautifulSoup,
the Ollama generation endpoint) are modelled as per-URL oracles describing the
outcome the collaborator produced; the embedded code is the repository logic
that reacts to those outcomes.  Machine-level details that the claims do not
touch (Python float repr, unicode classes of str.strip, repr of containers)
are approximated and documented at their definitions.
-/

set_option maxRecDepth 20000

/-- Python str.strip whitespace test (ASCII whitespace; Python also strips a
few rare unicode spaces, which no claim exercises). -/
def pySpace (c : Char) : Bool :=
  c = ' ' || c = '\t' || c = '\n' || c = '\r' || c = '\x0b' || c = '\x0c'

/-- Python str.strip(): remove leading and trailing whitespace. -/
def pyStrip (s : String) : String :=
  String.mk (((s.data.dropWhile pySpace).reverse.dropWhile pySpace).reverse)

/-- Python slicing s[:n] (by code points). -/
def pySlice (s : String) (n : Nat) : String :=
  String.mk (s.data.take n)

/-- Opening brace character. -/
def obrace : Char := '\x7b'

/-- Closing brace character. -/
def cbrace : Char := '\x7d'

/-- JSON values as decoded by Python json.loads.  Numbers keep their source
lexeme (used only through pyStr). -/
inductive Json where
  | null
  | bool (b : Bool)
  | num (raw : String)
  | str (s : String)
  | arr (elems : List Json)
  | obj (fields : List (String × Json))
deriving Repr, Inhabited

/-- JSON whitespace accepted by json.loads. -/
def jsonWs (c : Char) : Bool :=
  c = ' ' || c = '\t' || c = '\n' || c = '\r'

/-- Skip JSON whitespace. -/
def skipWs : List Char → List Char
  | [] => []
  | c :: cs => if jsonWs c then skipWs cs else c :: cs

/-- Hex digit value. -/
def hexVal (c : Char) : Option Nat :=
  if '0' ≤ c ∧ c ≤ '9' then some (c.toNat - '0'.toNat)
  else if 'a' ≤ c ∧ c ≤ 'f' then some (c.toNat - 'a'.toNat + 10)
  else if 'A' ≤ c ∧ c ≤ 'F' then some (c.toNat - 'A'.toNat + 10)
  else none

/-- Four hex digits to a code point. -/
def hexVal4 (a b c d : Char) : Option Nat :=
  match hexVal a, hexVal b, hexVal c, hexVal d with
  | some x, some y, some z, some w => some (((x * 16 + y) * 16 + z) * 16 + w)
  | _, _, _, _ => none

/-- Body of a JSON string after the opening quote: returns the decoded
characters and the remaining input after the closing quote.  Strict mode:
raw control characters are rejected.  A \uXXXX escape decodes to its code
point through Char.ofNat; the pairing of two consecutive surrogate escapes
into one astral character is not reproduced (no claim exercises unicode
escapes, and Lean Char cannot hold lone surrogates). -/
def parseStringBody : List Char → Option (List Char × List Char)
  | [] => none
  | '"' :: rest => some ([], rest)
  | '\\' :: '"' :: rest => (parseStringBody rest).map (fun p => ('"' :: p.1, p.2))
  | '\\' :: '\\' :: rest => (parseStringBody rest).map (fun p => ('\\' :: p.1, p.2))
  | '\\' :: '/' :: rest => (parseStringBody rest).map (fun p => ('/' :: p.1, p.2))
  | '\\' :: 'b' :: rest => (parseStringBody rest).map (fun p => ('\x08' :: p.1, p.2))
  | '\\' :: 'f' :: rest => (parseStringBody rest).map (fun p => ('\x0c' :: p.1, p.2))
  | '\\' :: 'n' :: rest => (parseStringBody rest).map (fun p => ('\n' :: p.1, p.2))
  | '\\' :: 'r' :: rest => (parseStringBody rest).map (fun p => ('\r' :: p.1, p.2))
  | '\\' :: 't' :: rest => (parseStringBody rest).map (fun p => ('\t' :: p.1, p.2))
  | '\\' :: 'u' :: a :: b :: c :: d :: rest =>
    match hexVal4 a b c d with
    | none => none
    | some n => (parseStringBody rest).map (fun p => (Char.ofNat n :: p.1, p.2))
  | '\\' :: _ => none
  | c :: rest =>
    if c.toNat < 32 then none
    else (parseStringBody rest).map (fun p => (c :: p.1, p.2))

/-- Leading decimal digits. -/
def digitSpan (cs : List Char) : List Char × List Char :=
  (cs.takeWhile Char.isDigit, cs.dropWhile Char.isDigit)

/-- Integer part of a JSON number: 0, or a nonzero digit followed by digits. -/
def parseIntPart : List Char → Option (List Char × List Char)
  | '0' :: rest => some (['0'], rest)
  | c :: rest =>
    if c.isDigit then
      let p := digitSpan rest
      some (c :: p.1, p.2)
    else none
  | [] => none

/-- Optional fraction part of a JSON number. -/
def parseFracPart : List Char → Option (List Char × List Char)
  | '.' :: rest =>
    let p := digitSpan rest
    if p.1 = [] then none else some ('.' :: p.1, p.2)
  | cs => some ([], cs)

/-- Optional exponent part of a JSON number. -/
def parseExpPart : List Char → Option (List Char × List Char)
  | [] => some ([], [])
  | c :: rest =>
    if c = 'e' || c = 'E' then
      match rest with
      | [] => none
      | s :: rest2 =>
        if s = '+' || s = '-' then
          let p := digitSpan rest2
          if p.1 = [] then none else some (c :: s :: p.1, p.2)
        else
          let p := digitSpan rest
          if p.1 = [] then none else some (c :: p.1, p.2)
    else some ([], c :: rest)

/-- JSON number: returns the lexeme. -/
def parseNumber (cs : List Char) : Option (String × List Char) :=
  let sp : List Char × List Char :=
    match cs with
    | '-' :: rest => (['-'], rest)
    | _ => ([], cs)
  match parseIntPart sp.2 with
  | none => none
  | some (ip, cs2) =>
    match parseFracPart cs2 with
    | none => none
    | some (fp, cs3) =>
      match parseExpPart cs3 with
      | none => none
      | some (ep, cs4) => some (String.mk (sp.1 ++ ip ++ fp ++ ep), cs4)

mutual

/-- Fuel-indexed JSON value grammar (json.loads with its default settings,
including the NaN and Infinity extensions). -/
def parseValue : Nat → List Char → Option (Json × List Char)
  | 0, _ => none
  | Nat.succ fuel, cs =>
    match skipWs cs with
    | 'n' :: 'u' :: 'l' :: 'l' :: rest => some (Json.null, rest)
    | 't' :: 'r' :: 'u' :: 'e' :: rest => some (Json.bool true, rest)
    | 'f' :: 'a' :: 'l' :: 's' :: 'e' :: rest => some (Json.bool false, rest)
    | 'N' :: 'a' :: 'N' :: rest => some (Json.num "NaN", rest)
    | 'I' :: 'n' :: 'f' :: 'i' :: 'n' :: 'i' :: 't' :: 'y' :: rest =>
      some (Json.num "Infinity", rest)
    | '-' :: 'I' :: 'n' :: 'f' :: 'i' :: 'n' :: 'i' :: 't' :: 'y' :: rest =>
      some (Json.num "-Infinity", rest)
    | '"' :: rest => (parseStringBody rest).map (fun p => (Json.str (String.mk p.1), p.2))
    | '[' :: rest =>
      match skipWs rest with
      | ']' :: rest2 => some (Json.arr [], rest2)
      | _ => (parseElems fuel rest).map (fun p => (Json.arr p.1, p.2))
    | c :: rest =>
      if c = obrace then
        match skipWs rest with
        | d :: rest2 =>
          if d = cbrace then some (Json.obj [], rest2)
          else (parseMembers fuel rest).map (fun p => (Json.obj p.1, p.2))
        | [] => none
      else (parseNumber (c :: rest)).map (fun p => (Json.num p.1, p.2))
    | [] => none

/-- Comma-separated array elements up to the closing bracket. -/
def parseElems : Nat → List Char → Option (List Json × List Char)
  | 0, _ => none
  | Nat.succ fuel, cs =>
    match parseValue fuel cs with
    | none => none
    | some (v, rest) =>
      match skipWs rest with
      | ',' :: rest2 => (parseElems fuel rest2).map (fun p => (v :: p.1, p.2))
      | ']' :: rest2 => some ([v], rest2)
      | _ => none

/-- Comma-separated object members up to the closing brace. -/
def parseMembers : Nat → List Char → Option (List (String × Json) × List Char)
  | 0, _ => none
  | Nat.succ fuel, cs =>
    match skipWs cs with
    | '"' :: rest =>
      match parseStringBody rest with
      | none => none
      | some (key, rest2) =>
        match skipWs rest2 with
        | ':' :: rest3 =>
          match parseValue fuel rest3 with
          | none => none
          | some (v, rest4) =>
            match skipWs rest4 with
            | ',' :: rest5 =>
              (parseMembers fuel rest5).map (fun p => ((String.mk key, v) :: p.1, p.2))
            | d :: rest5 =>
              if d = cbrace then some ([(String.mk key, v)], rest5) else none
            | [] => none
        | _ => none
    | _ => none

end

/-- Python json.loads: parse one JSON value, allowing surrounding whitespace
and rejecting trailing data. -/
def json_loads (s : String) : Option Json :=
  match parseValue (2 * s.data.length + 16) s.data with
  | some (v, rest) => if skipWs rest = [] then some v else none
  | none => none

/-- Lookup in a decoded JSON object: Python dicts keep the LAST occurrence of
a duplicated key, so the rightmost binding wins. -/
def objGet : List (String × Json) → String → Option Json
  | [], _ => none
  | kv :: rest, k =>
    match objGet rest k with
    | some v => some v
    | none => if kv.1 = k then some kv.2 else none

/-- Python str() of a decoded JSON number.  Exact for integer lexemes; float
lexemes are approximated by their lexeme (Python float repr canonicalisation
is not claim-relevant). -/
def pyNumStr (raw : String) : String :=
  if raw = "NaN" then "nan"
  else if raw = "Infinity" then "inf"
  else if raw = "-Infinity" then "-inf"
  else if raw = "-0" then "0"
  else raw

/-- Python repr() of a string, approximated as single quotes around the text
(repr escaping of special characters is not claim-relevant). -/
def pyReprQ (s : String) : String :=
  String.mk ('\x27' :: s.data ++ ['\x27'])

/-- Join with a separator (Python sep.join). -/
def joinWith (sep : String) : List String → String
  | [] => ""
  | [x] => x
  | x :: rest => x ++ sep ++ joinWith sep rest

/-- Python repr() of a decoded JSON value, used by str() on containers
(string quoting approximated by pyReprQ). -/
def pyRepr : Json → String
  | Json.null => "None"
  | Json.bool true => "True"
  | Json.bool false => "False"
  | Json.num raw => pyNumStr raw
  | Json.str s => pyReprQ s
  | Json.arr xs =>
    "[" ++ joinWith ", " (xs.attach.map (fun x => pyRepr x.1)) ++ "]"
  | Json.obj fs =>
    String.mk [obrace] ++
      joinWith ", " (fs.attach.map (fun kv => pyReprQ kv.1.1 ++ ": " ++ pyRepr kv.1.2)) ++
      String.mk [cbrace]
termination_by j => sizeOf j
decreasing_by
  all_goals simp_wf
  · have h1 := List.sizeOf_lt_of_mem x.2
    omega
  · have h1 := List.sizeOf_lt_of_mem kv.2
    have h2 : sizeOf kv.1.2 < sizeOf kv.1 := by
      rcases kv.1 with ⟨k, v⟩
      simp only []
      simp_arith
    omega

/-- Python str() of a decoded JSON value (as applied by the str coercion of
the size and price values in _parse_ollama_response): identity on strings,
Python spellings for the scalars, repr rendering for containers. -/
def pyStr : Json → String
  | Json.str s => s
  | Json.null => "None"
  | Json.bool true => "True"
  | Json.bool false => "False"
  | Json.num raw => pyNumStr raw
  | Json.arr xs => pyRepr (Json.arr xs)
  | Json.obj fs => pyRepr (Json.obj fs)

/-- models.py StorageUnit (pydantic model). -/
structure StorageUnit where
  url : String
  size : String
  price : String
  raw_size : Option String := none
  raw_price : Option String := none
deriving Repr, DecidableEq

/-- models.py ScrapingResult (pydantic model). -/
structure ScrapingResult where
  url : String
  success : Bool
  units : List StorageUnit := []
  error : Option String := none
deriving Repr, DecidableEq

/-- re.search of the pattern backslash-bracket dot-star backslash-bracket with
re.DOTALL: the leftmost match starts at the first opening bracket and, being
greedy with dot matching newlines, extends to the last closing bracket of the
whole text; there is a match exactly when some closing bracket lies strictly
after the first opening bracket. -/
def firstBracketSpan (s : String) : Option String :=
  match s.data.findIdx? (fun c => c = '['), s.data.reverse.findIdx? (fun c => c = ']') with
  | some i, some k =>
    let j := s.data.length - 1 - k
    if i < j then some (String.mk ((s.data.drop i).take (j - i + 1))) else none
  | _, _ => none

/-- Candidate JSON payload chosen by _parse_ollama_response: the bracketed
span when the regex matches, otherwise the whole stripped response. -/
def jsonCandidate (response : String) : String :=
  match firstBracketSpan response with
  | some s => s
  | none => pyStrip response

/-- Acceptance test of one array element: a keyed object containing both a
size key and a price key (isinstance(item, dict) and both keys present). -/
def hasKeys : Json → Bool
  | Json.obj fields => (objGet fields "size").isSome && (objGet fields "price").isSome
  | _ => false

/-- Construction of the StorageUnit from one accepted element: size and price
string-coerced and stripped, raw_size and raw_price string-coerced from the
raw keys when present, defaulting to the size and price values. -/
def buildUnit (url : String) : Json → StorageUnit
  | Json.obj fields =>
    { url := url
      size := pyStrip (pyStr ((objGet fields "size").getD Json.null))
      price := pyStrip (pyStr ((objGet fields "price").getD Json.null))
      raw_size := some (pyStr ((objGet fields "raw_size").getD
        ((objGet fields "size").getD Json.null)))
      raw_price := some (pyStr ((objGet fields "raw_price").getD
        ((objGet fields "price").getD Json.null))) }
  | _ => { url := url, size := "", price := "" }

/-- The element loop of _parse_ollama_response: for each item, when it is a
dict carrying both keys, append the constructed unit; otherwise skip it. -/
def unitsFromData (url : String) : List Json → List StorageUnit
  | [] => []
  | item :: rest =>
    match item with
    | Json.obj fields =>
      match objGet fields "size", objGet fields "price" with
      | some _, some _ =>
        { url := url
          size := pyStrip (pyStr ((objGet fields "size").getD Json.null))
          price := pyStrip (pyStr ((objGet fields "price").getD Json.null))
          raw_size := some (pyStr ((objGet fields "raw_size").getD
            ((objGet fields "size").getD Json.null)))
          raw_price := some (pyStr ((objGet fields "raw_price").getD
            ((objGet fields "price").getD Json.null))) } :: unitsFromData url rest
      | _, _ => unitsFromData url rest
    | _ => unitsFromData url rest

/-- OllamaClient._parse_ollama_response: pick the candidate payload, parse it
as JSON (JSONDecodeError yields the empty list), require a list (otherwise
empty), then run the element loop. -/
def parse_ollama_response (response : String) (url : String) : List StorageUnit :=
  match json_loads (jsonCandidate response) with
  | some (Json.arr data) => unitsFromData url data
  | some _ => []
  | none => []

/-- Whether a raw model response parses to a JSON list under the candidate
extraction of _parse_ollama_response. -/
def parsesToJsonList (s : String) : Bool :=
  match json_loads (jsonCandidate s) with
  | some (Json.arr _) => true
  | _ => false

/-- Outcome of the HTTP call to the generation endpoint, as seen by
OllamaClient._call_ollama (external transport modelled as an oracle).
httpResponse carries the status and, for a JSON body, its response field
(none when the key is absent); badBody stands for a 200 reply whose body
could not be read as a JSON object. -/
inductive GenOutcome where
  | timeoutErr
  | transportErr (msg : String)
  | badBody
  | httpResponse (status : Nat) (respField : Option String)
deriving Repr, DecidableEq

/-- OllamaClient._call_ollama: on HTTP 200 return the stripped response field
(defaulting to the empty string), on any other status or on timeout or
transport failure return None. -/
def call_ollama : GenOutcome → Option String
  | GenOutcome.timeoutErr => none
  | GenOutcome.transportErr _ => none
  | GenOutcome.badBody => none
  | GenOutcome.httpResponse status respField =>
    if status = 200 then some (pyStrip (respField.getD "")) else none

/-- OllamaClient.extract_storage_data: call the endpoint; a truthy (non-empty)
response text is parsed, anything else yields the empty list.  Exceptions
from the call are absorbed (the source catches them and returns []).  The
prompt built from the page HTML only influences the oracle outcome, never the
parsing, so it is not threaded through. -/
def extract_storage_data (gen : GenOutcome) (url : String) : List StorageUnit :=
  match call_ollama gen with
  | some s => if s = "" then [] else parse_ollama_response s url
  | none => []

/-- Outcome of the BeautifulSoup cleaning step inside _clean_html_for_llm
(external library modelled as an oracle): the text returned by get_text after
decomposing script, style, meta and link elements, or an exception. -/
inductive Bs4Outcome where
  | ok (text : String)
  | raises (msg : String)
deriving Repr, DecidableEq

/-- Python line-break characters recognised by str.splitlines. -/
def isLineBreak (c : Char) : Bool :=
  c = '\n' || c = '\r' || c = '\x0b' || c = '\x0c' ||
  c = '\x1c' || c = '\x1d' || c = '\x1e' || c = '\x85' ||
  c = '\u2028' || c = '\u2029'

/-- Worker for splitlinesPy: acc holds the current line reversed. -/
def splitlinesAux : List Char → List Char → List String
  | [], acc => if acc = [] then [] else [String.mk acc.reverse]
  | '\r' :: '\n' :: rest, acc => String.mk acc.reverse :: splitlinesAux rest []
  | c :: rest, acc =>
    if isLineBreak c then String.mk acc.reverse :: splitlinesAux rest []
    else splitlinesAux rest (c :: acc)

/-- Python str.splitlines (a carriage return and line feed pair counts as one
break; a trailing break produces no empty final line). -/
def splitlinesPy (s : String) : List String :=
  splitlinesAux s.data []

/-- Python split on the two-space separator (str.split with an explicit
separator: non-overlapping, left to right, empty pieces kept). -/
def splitTwoSpaces : List Char → List (List Char)
  | [] => [[]]
  | ' ' :: ' ' :: rest => [] :: splitTwoSpaces rest
  | c :: rest =>
    match splitTwoSpaces rest with
    | [] => [[c]]
    | g :: gs => (c :: g) :: gs

/-- The whitespace-collapsing step of _clean_html_for_llm: strip each line,
split each line on double spaces into stripped phrases, and join the
non-empty chunks with single spaces. -/
def collapseWs (text : String) : String :=
  joinWith " "
    ((((splitlinesPy text).map pyStrip).foldr
      (fun line acc => (splitTwoSpaces line.data).map (fun cs => pyStrip (String.mk cs)) ++ acc)
      []).filter (fun c => c != ""))

/-- OllamaClient._clean_html_for_llm: on successful cleaning, collapse
whitespace and hard-truncate to max_chars code points plus a trailing
three-dot marker when over budget; when cleaning raises, fall back to the
truncated raw HTML. -/
def clean_html_for_llm (bs4 : Bs4Outcome) (html_content : String)
    (max_chars : Nat := 8000) : String :=
  match bs4 with
  | Bs4Outcome.ok raw =>
    let text := collapseWs raw
    if max_chars < text.length then pySlice text max_chars ++ "..." else text
  | Bs4Outcome.raises _ => pySlice html_content max_chars

/-- Outcome of the browser interaction for one URL inside
StorageScraper._scrape_url (Playwright modelled as an oracle):
exnBeforePage: new_page itself raised, so no page exists;
exnAfterPage: a later await (headers, goto, the grace wait, content) raised
after the page was created;
noResponse: goto returned no response object;
response: goto returned a response with the given status, and content
capture produced the given HTML. -/
inductive FetchOutcome where
  | exnBeforePage (msg : String)
  | exnAfterPage (msg : String)
  | noResponse
  | response (status : Nat) (html : String)
deriving Repr, DecidableEq

/-- Per-URL oracle: the browser outcome and the generation-endpoint
outcome. -/
structure UrlEnv where
  fetch : FetchOutcome
  gen : GenOutcome
deriving Repr, DecidableEq

/-- Observable outcome of one run of _scrape_url: the returned result plus
the resource and control-flow facts the claims speak about. -/
structure PipelineOutput where
  result : ScrapingResult
  pageOpened : Bool
  pageClosed : Bool
  extractionAttempted : Bool
deriving Repr, DecidableEq

/-- StorageScraper._scrape_url: open a page, navigate, classify the response,
capture content, close the page, extract.  The except-Exception handler
returns a failed result with the stringified cause prefixed by the scraping
error text; note that this path does not close the page. -/
def scrape_url (env : UrlEnv) (url : String) : PipelineOutput :=
  match env.fetch with
  | FetchOutcome.exnBeforePage msg =>
    { result := { url := url, success := false, error := some ("Scraping error: " ++ msg) }
      pageOpened := false, pageClosed := false, extractionAttempted := false }
  | FetchOutcome.exnAfterPage msg =>
    { result := { url := url, success := false, error := some ("Scraping error: " ++ msg) }
      pageOpened := true, pageClosed := false, extractionAttempted := false }
  | FetchOutcome.noResponse =>
    { result := { url := url, success := false,
                  error := some "Failed to load page: HTTP No response" }
      pageOpened := true, pageClosed := true, extractionAttempted := false }
  | FetchOutcome.response status html =>
    if 400 ≤ status then
      { result := { url := url, success := false,
                    error := some ("Failed to load page: HTTP " ++ toString status) }
        pageOpened := true, pageClosed := true, extractionAttempted := false }
    else
      have _ := html
      { result := { url := url, success := true, units := extract_storage_data env.gen url }
        pageOpened := true, pageClosed := true, extractionAttempted := true }

/-- The RuntimeError message raised by scrape_urls before initialisation. -/
def runtimeErrMsg : String :=
  "Scraper not properly initialized. Use async with statement."

/-- One gathered task outcome.  _scrape_url catches every Exception
internally, so the task always completes with a result; the Except layer
keeps the shape asyncio.gather with return_exceptions=True hands back. -/
def taskOutcome (env : UrlEnv) (url : String) : Except String ScrapingResult :=
  Except.ok (scrape_url env url).result

/-- The task list built in input order (asyncio.gather returns results in
task order, not completion order). -/
def gatherTasks (envs : Nat → UrlEnv) : Nat → List String → List (Except String ScrapingResult)
  | _, [] => []
  | i, url :: rest => taskOutcome (envs i) url :: gatherTasks envs (i + 1) rest

/-- The result-assembly loop of scrape_urls: an exception outcome at position
i becomes a failed result for urls[i] with the stringified cause, an ordinary
outcome is kept as is. -/
def finalResults : List String → List (Except String ScrapingResult) → List ScrapingResult
  | [], _ => []
  | _ :: _, [] => []
  | url :: us, o :: os =>
    match o with
    | Except.error msg =>
      { url := url, success := false, error := some msg } :: finalResults us os
    | Except.ok r => r :: finalResults us os

/-- StorageScraper.scrape_urls: raise RuntimeError when the browser handle is
still None, otherwise run one pipeline per URL under the bounded semaphore
(concurrency is isolated by construction, so the bound does not affect the
value) and assemble results in input order. -/
def scrape_urls (browser : Option Unit) (envs : Nat → UrlEnv) (urls : List String) :
    Except String (List ScrapingResult) :=
  match browser with
  | none => Except.error runtimeErrMsg
  | some _ => Except.ok (finalResults urls (gatherTasks envs 0 urls))

/-- Fixture: a per-URL oracle where navigation returns no response object. -/
def envNoResp : UrlEnv := { fetch := FetchOutcome.noResponse, gen := GenOutcome.timeoutErr }

/-- Fixture: a two-URL input list. -/
def urlsAB : List String := ["https://a.example", "https://b.example"]

/-- Fixture: the result list scrape_urls produces for urlsAB under
envNoResp. -/
def rsAB : List ScrapingResult :=
  [{ url := "https://a.example", success := false,
     error := some "Failed to load page: HTTP No response" },
   { url := "https://b.example", success := false,
     error := some "Failed to load page: HTTP No response" }]

/-- Fixture: a parsed array with one accepted element and one skipped
element. -/
def sampleData : List Json :=
  [Json.obj [("size", Json.str "5x5"), ("price", Json.str "$9")], Json.num "3"]

/-- Fixture: a model response mixing an accepted object (with a numeric
price and an explicit raw_price), a non-object element and an object missing
the price key. -/
def mixedResponse : String :=
  "[\x7b\"size\": \"10x10\", \"price\": 95, \"raw_price\": \"$95.00\"\x7d, 7, \x7b\"size\": \"5x5\"\x7d]"

/-- Fixture: the decoded JSON array of mixedResponse. -/
def mixedData : List Json :=
  [Json.obj [("size", Json.str "10x10"), ("price", Json.num "95"),
             ("raw_price", Json.str "$95.00")],
   Json.num "7",
   Json.obj [("size", Json.str "5x5")]]

/-- A string with a non-empty left part is non-empty after appending. -/
theorem append_ne_empty_left (p q : String) (hp : p ≠ "") : p ++ q ≠ "" := by
  intro hcontr
  have hd : p.data ++ q.data = [] := by rw [← String.data_append, hcontr]
  exact hp (String.ext (List.append_eq_nil.mp hd).1)

/-- Appending concatenates lengths. -/
theorem string_length_append (a b : String) : (a ++ b).length = a.length + b.length := by
  show (a ++ b).data.length = a.data.length + b.data.length
  rw [String.data_append, List.length_append]

/-- Python slicing never exceeds the requested length. -/
theorem pySlice_length_le (s : String) (n : Nat) : (pySlice s n).length ≤ n := by
  show (s.data.take n).length ≤ n
  exact List.length_take_le n s.data

/-- Every branch of the per-URL pipeline echoes the input URL into the
result. -/
theorem scrape_url_result_url (env : UrlEnv) (url : String) :
    (scrape_url env url).result.url = url := by
  rcases env with ⟨fetch, gen⟩
  cases fetch with
  | exnBeforePage msg => rfl
  | exnAfterPage msg => rfl
  | noResponse => rfl
  | response status html =>
    simp only [scrape_url]
    split <;> rfl

/-- Assembled results project back onto the input URL list. -/
theorem finalResults_gatherTasks_map_url :
    ∀ (us : List String) (envs : Nat → UrlEnv) (i : Nat),
      (finalResults us (gatherTasks envs i us)).map ScrapingResult.url = us := by
  intro us
  induction us with
  | nil => intro envs i; rfl
  | cons u rest ih =>
    intro envs i
    simp only [gatherTasks, taskOutcome, finalResults, List.map]
    rw [scrape_url_result_url, ih]

/-- Every assembled result is the result of some pipeline run. -/
theorem mem_finalResults_gatherTasks :
    ∀ (us : List String) (envs : Nat → UrlEnv) (i : Nat) (r : ScrapingResult),
      r ∈ finalResults us (gatherTasks envs i us) →
      ∃ env u, r = (scrape_url env u).result := by
  intro us
  induction us with
  | nil => intro envs i r hr; exact absurd hr (List.not_mem_nil r)
  | cons u rest ih =>
    intro envs i r hr
    simp only [gatherTasks, taskOutcome, finalResults] at hr
    rcases List.mem_cons.mp hr with h1 | h2
    · exact ⟨envs i, u, h1⟩
    · exact ih envs (i + 1) r h2

/-- C10: invoking scrape_urls before the async context manager has set the
browser handle (browser still None) raises RuntimeError at once, for every
input URL list, and no result list is produced. -/
theorem scrape_urls_uninitialized (envs : Nat → UrlEnv) (urls : List String) :
    scrape_urls none envs urls = Except.error runtimeErrMsg := rfl

/-- Indexing a projected list agrees with projecting the indexed element. -/
theorem map_get_url (rs : List ScrapingResult) (i : Nat) (h1 : i < rs.length)
    (h2 : i < (rs.map ScrapingResult.url).length) :
    (rs.map ScrapingResult.url).get ⟨i, h2⟩ = (rs.get ⟨i, h1⟩).url := by
  induction rs generalizing i with
  | nil => exact absurd h1 (Nat.not_lt_zero i)
  | cons r rest ih =>
    cases i with
    | zero => rfl
    | succ j => exact ih j (Nat.lt_of_succ_lt_succ h1) (Nat.lt_of_succ_lt_succ h2)

/-- C1: for every input list, scrape_urls returns one PageResult per input
URL, with the i-th result echoing the i-th input URL; results are indexed by
input position, not completion order. -/
theorem scrape_urls_one_result_per_url (envs : Nat → UrlEnv) (urls : List String)
    (rs : List ScrapingResult) (h : scrape_urls (some ()) envs urls = Except.ok rs) :
    rs.length = urls.length ∧
    ∀ i (h1 : i < rs.length) (h2 : i < urls.length),
      (rs.get ⟨i, h1⟩).url = urls.get ⟨i, h2⟩ := by
  have h2 : Except.ok (ε := String) (finalResults urls (gatherTasks envs 0 urls)) =
      Except.ok rs := h
  injection h2 with h3
  subst h3
  have hmap := finalResults_gatherTasks_map_url urls envs 0
  constructor
  · have h4 := congrArg List.length hmap
    rw [List.length_map] at h4
    exact h4
  · intro i hi1 hi2
    have hge : i < ((finalResults urls (gatherTasks envs 0 urls)).map
        ScrapingResult.url).length := by
      rw [List.length_map]
      exact hi1
    have h5 : ((finalResults urls (gatherTasks envs 0 urls)).map
        ScrapingResult.url).get ⟨i, hge⟩ = urls.get ⟨i, hi2⟩ :=
      List.get_of_eq hmap ⟨i, hge⟩
    rw [map_get_url _ i hi1 hge] at h5
    exact h5

/-- Witness for C1 at a concrete two-URL run. -/
theorem scrape_urls_one_result_per_url_witness :
    rsAB.length = urlsAB.length ∧
    (rsAB.get ⟨1, by decide⟩).url = urlsAB.get ⟨1, by decide⟩ := by
  have h : scrape_urls (some ()) (fun _ => envNoResp) urlsAB = Except.ok rsAB := rfl
  have main := scrape_urls_one_result_per_url (fun _ => envNoResp) urlsAB rsAB h
  exact ⟨main.1, main.2 1 (by decide) (by decide)⟩

/-- Each branch of the pipeline satisfies the result invariant: a non-empty
error exactly on failure, and no units on failure. -/
theorem scrape_url_result_invariant (env : UrlEnv) (url : String) :
    ((∃ msg, (scrape_url env url).result.error = some msg ∧ msg ≠ "") ↔
      (scrape_url env url).result.success = false) ∧
    ((scrape_url env url).result.success = false →
      (scrape_url env url).result.units = []) := by
  rcases env with ⟨fetch, gen⟩
  cases fetch with
  | exnBeforePage msg =>
    refine ⟨⟨fun _ => rfl, fun _ => ?_⟩, fun _ => rfl⟩
    exact ⟨"Scraping error: " ++ msg, rfl, append_ne_empty_left _ _ (by decide)⟩
  | exnAfterPage msg =>
    refine ⟨⟨fun _ => rfl, fun _ => ?_⟩, fun _ => rfl⟩
    exact ⟨"Scraping error: " ++ msg, rfl, append_ne_empty_left _ _ (by decide)⟩
  | noResponse =>
    refine ⟨⟨fun _ => rfl, fun _ => ?_⟩, fun _ => rfl⟩
    exact ⟨"Failed to load page: HTTP No response", rfl, by decide⟩
  | response status html =>
    simp only [scrape_url]
    split
    · refine ⟨⟨fun _ => rfl, fun _ => ?_⟩, fun _ => rfl⟩
      exact ⟨"Failed to load page: HTTP " ++ toString status, rfl,
        append_ne_empty_left _ _ (by decide)⟩
    · refine ⟨⟨?_, ?_⟩, ?_⟩
      · rintro ⟨msg, hm, -⟩
        exact Option.noConfusion hm
      · intro hfalse
        exact Bool.noConfusion hfalse
      · intro hfalse
        exact Bool.noConfusion hfalse

/-- C2: in every result list produced by a run, a result carries a non-empty
error exactly when it failed, and a failed result carries no units. -/
theorem scrape_urls_error_iff_failure (envs : Nat → UrlEnv) (urls : List String)
    (rs : List ScrapingResult) (h : scrape_urls (some ()) envs urls = Except.ok rs) :
    ∀ r ∈ rs, ((∃ msg, r.error = some msg ∧ msg ≠ "") ↔ r.success = false) ∧
      (r.success = false → r.units = []) := by
  have h2 : Except.ok (ε := String) (finalResults urls (gatherTasks envs 0 urls)) =
      Except.ok rs := h
  injection h2 with h3
  intro r hr
  rw [← h3] at hr
  obtain ⟨env, u, rfl⟩ := mem_finalResults_gatherTasks urls envs 0 r hr
  exact scrape_url_result_invariant env u

/-- Witness for C2 at a concrete run and result. -/
theorem scrape_urls_error_iff_failure_witness :
    ((∃ msg, (rsAB.get ⟨0, by decide⟩).error = some msg ∧ msg ≠ "") ↔
      (rsAB.get ⟨0, by decide⟩).success = false) ∧
    ((rsAB.get ⟨0, by decide⟩).success = false →
      (rsAB.get ⟨0, by decide⟩).units = []) := by
  have h : scrape_urls (some ()) (fun _ => envNoResp) urlsAB = Except.ok rsAB := rfl
  exact scrape_urls_error_iff_failure (fun _ => envNoResp) urlsAB rsAB h
    (rsAB.get ⟨0, by decide⟩) (by decide)

/-- Units come from the input URL in every construction branch. -/
theorem buildUnit_url (url : String) (j : Json) : (buildUnit url j).url = url := by
  cases j <;> rfl

/-- The element loop equals a filter by key-presence followed by the unit
construction, in array order. -/
theorem unitsFromData_eq_filter_map (url : String) :
    ∀ data : List Json,
      unitsFromData url data = (data.filter hasKeys).map (buildUnit url) := by
  intro data
  induction data with
  | nil => rfl
  | cons item rest ih =>
    cases item with
    | null => simp [unitsFromData, List.filter_cons, hasKeys, ih]
    | bool b => simp [unitsFromData, List.filter_cons, hasKeys, ih]
    | num raw => simp [unitsFromData, List.filter_cons, hasKeys, ih]
    | str s => simp [unitsFromData, List.filter_cons, hasKeys, ih]
    | arr xs => simp [unitsFromData, List.filter_cons, hasKeys, ih]
    | obj fields =>
      cases hs : objGet fields "size" with
      | none =>
        have hk : hasKeys (Json.obj fields) = false := by simp [hasKeys, hs]
        simp [unitsFromData, hs, List.filter_cons, hk, ih]
      | some sv =>
        cases hp : objGet fields "price" with
        | none =>
          have hk : hasKeys (Json.obj fields) = false := by simp [hasKeys, hs, hp]
          simp [unitsFromData, hs, hp, List.filter_cons, hk, ih]
        | some pv =>
          have hk : hasKeys (Json.obj fields) = true := by simp [hasKeys, hs, hp]
          simp [unitsFromData, hs, hp, List.filter_cons, hk, ih, buildUnit]

/-- C3 (counterexample): a successful PageResult can carry a Unit whose size
is the empty string — the loop checks only key presence, never
non-emptiness. -/
theorem successful_result_with_empty_size :
    (scrape_url { fetch := FetchOutcome.response 200 "<html></html>",
                  gen := GenOutcome.httpResponse 200
                    (some "[\x7b\"size\": \"\", \"price\": \"$50/month\"\x7d]") }
        "https://a.example").result =
      { url := "https://a.example", success := true,
        units := [{ url := "https://a.example", size := "", price := "$50/month",
                    raw_size := some "", raw_price := some "$50/month" }] } := by
  rfl

/-- C3 (amended): every Unit in a result comes from a candidate element that
is an object containing both the size and the price key (candidates missing
either are dropped, and exactly those are dropped); the size and price
fields are always present as strings, but their values are not checked for
non-emptiness. -/
theorem units_only_from_elements_with_both_keys (url : String) (data : List Json) :
    (unitsFromData url data).length = data.countP hasKeys ∧
    ∀ u ∈ unitsFromData url data,
      ∃ j, j ∈ data ∧ hasKeys j = true ∧ u = buildUnit url j := by
  constructor
  · rw [unitsFromData_eq_filter_map, List.length_map, List.countP_eq_length_filter]
  · intro u hu
    rw [unitsFromData_eq_filter_map] at hu
    rcases List.mem_map.mp hu with ⟨j, hj, rfl⟩
    have hj2 := List.mem_filter.mp hj
    exact ⟨j, hj2.1, hj2.2, rfl⟩

/-- Witness for the amended C3 at a concrete array. -/
theorem units_only_from_elements_with_both_keys_witness :
    (unitsFromData "u" sampleData).length = sampleData.countP hasKeys ∧
    ∃ j, j ∈ sampleData ∧ hasKeys j = true ∧
      ({ url := "u", size := "5x5", price := "$9", raw_size := some "5x5",
         raw_price := some "$9" } : StorageUnit) = buildUnit "u" j := by
  have main := units_only_from_elements_with_both_keys "u" sampleData
  exact ⟨main.1, main.2 _ (by decide)⟩

/-- A response that does not parse to a JSON list yields no units. -/
theorem parse_ollama_response_eq_nil (s url : String)
    (h : parsesToJsonList s = false) : parse_ollama_response s url = [] := by
  unfold parse_ollama_response
  split
  · rename_i data heq
    exfalso
    unfold parsesToJsonList at h
    rw [heq] at h
    exact Bool.noConfusion h
  · rfl
  · rfl

/-- C4: when the fetch succeeded (response with status below 400) but the
generation call timed out, failed at transport level, had an unreadable
body, returned a non-200 status, or returned text that does not parse to a
JSON list, the pipeline still returns success with an empty unit list. -/
theorem extraction_failure_keeps_success (env : UrlEnv) (url : String)
    (status : Nat) (html : String)
    (hf : env.fetch = FetchOutcome.response status html) (hs : status < 400)
    (hg : env.gen = GenOutcome.timeoutErr ∨
          (∃ m, env.gen = GenOutcome.transportErr m) ∨
          env.gen = GenOutcome.badBody ∨
          (∃ st r, env.gen = GenOutcome.httpResponse st r ∧ st ≠ 200) ∨
          (∃ s, call_ollama env.gen = some s ∧ parsesToJsonList s = false)) :
    (scrape_url env url).result = { url := url, success := true, units := [] } := by
  have hempty : extract_storage_data env.gen url = [] := by
    rcases hg with h | ⟨m, h⟩ | h | ⟨st, r, h, hst⟩ | ⟨s, hcall, hlist⟩
    · rw [h]; rfl
    · rw [h]; rfl
    · rw [h]; rfl
    · rw [h]
      simp only [extract_storage_data, call_ollama, if_neg hst]
    · simp only [extract_storage_data, hcall]
      by_cases hse : s = ""
      · rw [if_pos hse]
      · rw [if_neg hse]
        exact parse_ollama_response_eq_nil s url hlist
  simp only [scrape_url, hf, if_neg (Nat.not_le.mpr hs), hempty]

/-- Witness for C4 at a concrete timed-out extraction. -/
theorem extraction_failure_keeps_success_witness :
    (scrape_url { fetch := FetchOutcome.response 200 "<p>hi</p>",
                  gen := GenOutcome.timeoutErr } "https://a.example").result =
      { url := "https://a.example", success := true, units := [] } :=
  extraction_failure_keeps_success _ "https://a.example" 200 "<p>hi</p>" rfl
    (by decide) (Or.inl rfl)

/-- C5 (code evaluation): when navigation raises after the page was created
(for example a navigation timeout), the except-Exception path returns a
failed result without closing the page — the page is leaked, contradicting
the release-on-every-exit-path discipline. -/
theorem scrape_url_leaks_page_on_navigation_exception :
    (scrape_url { fetch := FetchOutcome.exnAfterPage "Timeout 30000ms exceeded.",
                  gen := GenOutcome.timeoutErr } "https://a.example").pageOpened = true ∧
    (scrape_url { fetch := FetchOutcome.exnAfterPage "Timeout 30000ms exceeded.",
                  gen := GenOutcome.timeoutErr } "https://a.example").pageClosed = false ∧
    (scrape_url { fetch := FetchOutcome.exnAfterPage "Timeout 30000ms exceeded.",
                  gen := GenOutcome.timeoutErr } "https://a.example").result.success = false :=
  ⟨rfl, rfl, rfl⟩

/-- C6: a navigation response with status at least 400 produces a failed
result whose error names the status code, and extraction is never
attempted. -/
theorem scrape_url_http_error (env : UrlEnv) (url : String) (status : Nat)
    (html : String) (hf : env.fetch = FetchOutcome.response status html)
    (hs : 400 ≤ status) :
    (scrape_url env url).result.success = false ∧
    (scrape_url env url).result.error =
      some ("Failed to load page: HTTP " ++ toString status) ∧
    (scrape_url env url).extractionAttempted = false := by
  rcases env with ⟨fetch, gen⟩
  simp only at hf
  subst hf
  simp [scrape_url, hs]

/-- Witness for C6 at a concrete 404. -/
theorem scrape_url_http_error_witness :
    (scrape_url { fetch := FetchOutcome.response 404 "", gen := GenOutcome.timeoutErr }
        "https://a.example").result.success = false ∧
    (scrape_url { fetch := FetchOutcome.response 404 "", gen := GenOutcome.timeoutErr }
        "https://a.example").result.error =
      some ("Failed to load page: HTTP " ++ toString 404) ∧
    (scrape_url { fetch := FetchOutcome.response 404 "", gen := GenOutcome.timeoutErr }
        "https://a.example").extractionAttempted = false :=
  scrape_url_http_error _ "https://a.example" 404 "" rfl (by decide)

/-- C7: response parsing takes the greedy bracketed span (spanning newlines)
as the JSON payload when one exists and the whole stripped response
otherwise; on the sample response with surrounding prose it yields exactly
one unit with size 5x5 and price $50/month. -/
theorem response_parsing_bracket_span :
    (∀ s sp, firstBracketSpan s = some sp → jsonCandidate s = sp) ∧
    (∀ s, firstBracketSpan s = none → jsonCandidate s = pyStrip s) ∧
    firstBracketSpan "a[1]2]b" = some "[1]2]" ∧
    firstBracketSpan "pre [\n\x7b\"size\":\"1x1\",\"price\":\"$2\"\x7d\n] post" =
      some "[\n\x7b\"size\":\"1x1\",\"price\":\"$2\"\x7d\n]" ∧
    firstBracketSpan "not json at all" = none ∧
    jsonCandidate "  not json at all  " = "not json at all" ∧
    parse_ollama_response "not json at all" "https://example.com" = [] ∧
    parse_ollama_response
        "Here you go: [\x7b\"size\":\"5x5\",\"price\":\"$50/month\"\x7d] thanks"
        "https://example.com" =
      [{ url := "https://example.com", size := "5x5", price := "$50/month",
         raw_size := some "5x5", raw_price := some "$50/month" }] := by
  refine ⟨?_, ?_, rfl, rfl, rfl, rfl, rfl, rfl⟩
  · intro s sp h
    simp [jsonCandidate, h]
  · intro s h
    simp [jsonCandidate, h]

/-- Witness for C7: the span rule applied at a concrete response. -/
theorem response_parsing_bracket_span_witness :
    jsonCandidate "a[1]2]b" = "[1]2]" :=
  response_parsing_bracket_span.1 "a[1]2]b" "[1]2]" rfl

/-- C8: on a response parsing to a JSON array, the returned units are
exactly the array elements that are objects with both a size and a price
key, in array order, each built by the unit construction (trimmed string
coercions, raw fields defaulting to the coerced values), and each carrying
the input URL as source. -/
theorem parse_accepts_exactly_keyed_objects (url s : String) (data : List Json)
    (h : json_loads (jsonCandidate s) = some (Json.arr data)) :
    parse_ollama_response s url = (data.filter hasKeys).map (buildUnit url) ∧
    ∀ u ∈ parse_ollama_response s url, u.url = url := by
  have hp : parse_ollama_response s url = unitsFromData url data := by
    unfold parse_ollama_response
    rw [h]
  constructor
  · rw [hp]
    exact unitsFromData_eq_filter_map url data
  · intro u hu
    rw [hp, unitsFromData_eq_filter_map] at hu
    rcases List.mem_map.mp hu with ⟨j, _, rfl⟩
    exact buildUnit_url url j

/-- Witness for C8 at a concrete mixed response. -/
theorem parse_accepts_exactly_keyed_objects_witness :
    parse_ollama_response mixedResponse "https://a.example" =
      (mixedData.filter hasKeys).map (buildUnit "https://a.example") :=
  (parse_accepts_exactly_keyed_objects "https://a.example" mixedResponse
    mixedData rfl).1

/-- C9: whenever the cleaned text exceeds the character budget, the
preprocessed string embedded in the prompt is at most the budget plus the
three-character marker; the fallback path (cleaning raised, raw HTML
truncated) respects the same bound. -/
theorem clean_html_truncation_bound (bs4 : Bs4Outcome) (html : String)
    (maxc : Nat) (h : ∀ t, bs4 = Bs4Outcome.ok t → maxc < (collapseWs t).length) :
    (clean_html_for_llm bs4 html maxc).length ≤ maxc + 3 := by
  cases bs4 with
  | raises msg =>
    calc (clean_html_for_llm (Bs4Outcome.raises msg) html maxc).length
        = (pySlice html maxc).length := rfl
      _ ≤ maxc := pySlice_length_le html maxc
      _ ≤ maxc + 3 := Nat.le_add_right maxc 3
  | ok t =>
    have ht := h t rfl
    have hred : clean_html_for_llm (Bs4Outcome.ok t) html maxc =
        pySlice (collapseWs t) maxc ++ "..." := by
      simp only [clean_html_for_llm]
      rw [if_pos ht]
    rw [hred]
    calc (pySlice (collapseWs t) maxc ++ "...").length
        = (pySlice (collapseWs t) maxc).length + ("..." : String).length :=
          string_length_append _ _
      _ = (pySlice (collapseWs t) maxc).length + 3 := rfl
      _ ≤ maxc + 3 := Nat.add_le_add_right (pySlice_length_le _ _) 3

/-- Witness for C9 at a concrete over-budget input. -/
theorem clean_html_truncation_bound_witness :
    2 < (collapseWs "abcdef").length ∧
    (clean_html_for_llm (Bs4Outcome.ok "abcdef") "x" 2).length ≤ 2 + 3 := by
  refine ⟨by decide, ?_⟩
  exact clean_html_truncation_bound (Bs4Outcome.ok "abcdef") "x" 2
    (by intro t ht; cases ht; decide)
